import Mathlib

/-!
Verification development for the DocuMentor endpoint-testing pipeline.

The definitions below are a shallow embedding of the TypeScript sources:
  * `src/src/testers/endpoint.ts`   — request synthesis, value generation,
    success classification (`testEndpoint`, `buildRequestBody`,
    `getParameterValue`, `generateDataFromSchema`, `generateObjectFromSchema`);
  * `src/src/testers/schema.ts`     — `validateResponseSchema`,
    `validateRequestParams`;
  * `src/dist/testers/index.js`     — the orchestrator `testApiEndpoints`;
  * `src/dist/utils/parser` (shipped as `src/unnamed/part_007`) —
    `parseRouteParams`.

JavaScript dynamic values are modelled by the inductive `Json`; absent
(`undefined`) fields are modelled with `Option`.  JavaScript truthiness
(`x || y`, `if (x)`) is modelled explicitly by `truthy`/`orElseJs`, because
the sources use `||` (truthiness), not `??` (nullish coalescing).  The
network call and the Ajv schema compiler are external effects; they enter
the embedding as explicit oracle arguments (`Except` captures `throw`).
-/

namespace DocuMentor

/-- A JavaScript/JSON runtime value.  Objects are association lists in
insertion order; numbers are modelled as integers (every literal the
sources produce is an integer). -/
inductive Json where
  | null : Json
  | bool (b : Bool) : Json
  | num (n : Int) : Json
  | str (s : String) : Json
  | arr (elems : List Json) : Json
  | obj (fields : List (String × Json)) : Json

/-- JavaScript truthiness of a runtime value.  `undefined` is handled by the
`Option` wrapper at each use site. -/
def truthy : Json → Bool
  | .null => false
  | .bool b => b
  | .num n => n != 0
  | .str s => s != ""
  | .arr _ => true
  | .obj _ => true

/-- The JS `x || y` where `x` is a possibly-absent field: an absent or falsy `x`
falls through to `y`. -/
def orElseJs (x : Option Json) (y : Json) : Json :=
  match x with
  | some v => if truthy v then v else y
  | none => y

/-- Property lookup `m[k]` on an object used as a map, `none` when the key
is absent (`undefined`). -/
def lookupVal (m : List (String × Json)) (k : String) : Option Json :=
  (m.find? (fun p => p.1 == k)).map (·.2)

/-- JS `typeof v` for the modelled values (`typeof null` is `"object"`, and
arrays are `"object"` too). -/
def typeofJs : Json → String
  | .null => "object"
  | .bool _ => "boolean"
  | .num _ => "number"
  | .str _ => "string"
  | .arr _ => "object"
  | .obj _ => "object"

mutual
/-- A schema description node as consumed by `generateDataFromSchema`
(`src/src/testers/endpoint.ts`): `{ type?, example?, default?, items?,
properties?, $ref? }`.  `ex` is the `example` field, `dflt` the `default`
field, `ref` the `$ref` field (Lean keywords prevent reusing those names). -/
inductive Schema where
  | mk (type : Option String) (ex : Option Json) (dflt : Option Json)
       (items : Option Schema) (props : Option Props) (ref : Option String) : Schema

/-- The `properties` object of a schema node: named sub-schemas in
insertion order. -/
inductive Props where
  | nil : Props
  | cons (name : String) (schema : Schema) (rest : Props) : Props
end

def Schema.type : Schema → Option String
  | .mk t _ _ _ _ _ => t

def Schema.ex : Schema → Option Json
  | .mk _ e _ _ _ _ => e

def Schema.dflt : Schema → Option Json
  | .mk _ _ d _ _ _ => d

def Schema.items : Schema → Option Schema
  | .mk _ _ _ i _ _ => i

def Schema.props : Schema → Option Props
  | .mk _ _ _ _ p _ => p

def Schema.ref : Schema → Option String
  | .mk _ _ _ _ _ r => r

mutual
/-- Embedding of `generateDataFromSchema` (`src/src/testers/endpoint.ts:230`)
for a present schema argument; the JS guard `if (!schema) return null` is the
`Option` wrapper `generateData` below.  The source dispatches on
`typeof schema.type === 'string'`; when `type` is absent the `$ref` branch
and the final fallthrough both return `{}`. -/
def generateDataFromSchema : Schema → List (String × Json) → Json
  | .mk ty ex dflt items props ref, paramValues =>
    match ty with
    | some t =>
      if t = "string" then orElseJs ex (orElseJs dflt (.str "test-string"))
      else if t = "number" ∨ t = "integer" then
        orElseJs ex (orElseJs dflt (.num 123))
      else if t = "boolean" then orElseJs ex (orElseJs dflt (.bool true))
      else if t = "array" then
        match items with
        | some it => .arr [generateDataFromSchema it paramValues]
        | none => .arr []
      else if t = "object" then
        -- the source passes `schema` itself; the node is rebuilt here with its
        -- `type` field refined by the surrounding match
        generateObjectFromSchema (.mk (some t) ex dflt items props ref) paramValues
      else .null
    | none =>
      match ref with
      | some _ => .obj []   -- `$ref` placeholder: unresolved, returns `{}`
      | none => .obj []     -- final `return {}` fallthrough
termination_by s _ => (sizeOf s, 1)
decreasing_by
  · apply Prod.Lex.left
    subst_vars
    simp
    omega
  · apply Prod.Lex.right
    omega

/-- Embedding of `generateObjectFromSchema` (`src/src/testers/endpoint.ts:272`). -/
def generateObjectFromSchema : Schema → List (String × Json) → Json
  | .mk _ _ _ _ props _, paramValues =>
    match props with
    | none => .obj []
    | some ps => .obj (generateProperties ps paramValues)
termination_by s _ => (sizeOf s, 0)
decreasing_by
  apply Prod.Lex.left
  simp
  omega

/-- The `for (const [propName, propSchema] of Object.entries(schema.properties))`
loop body of `generateObjectFromSchema`: an override from `paramValues` wins,
otherwise the property's schema is interpreted recursively. -/
def generateProperties : Props → List (String × Json) → List (String × Json)
  | .nil, _ => []
  | .cons name psch rest, paramValues =>
    match lookupVal paramValues name with
    | some v => (name, v) :: generateProperties rest paramValues
    | none => (name, generateDataFromSchema psch paramValues) :: generateProperties rest paramValues
termination_by ps _ => (sizeOf ps, 0)
decreasing_by
  all_goals apply Prod.Lex.left
  all_goals simp
  all_goals omega
end

/-- Wrapper for `generateDataFromSchema` including the `if (!schema) return null` guard
for an absent argument. -/
def generateData (schema : Option Schema) (paramValues : List (String × Json)) : Json :=
  match schema with
  | none => .null
  | some s => generateDataFromSchema s paramValues

/-- A `Parameter` of the canonical endpoint model (`src/unnamed/part_006`,
`src/utils/types`).  The TS field `in` is a Lean keyword and is called `loc`
here; `default` is `dflt`, `example` is `ex`.  The `enum` and `format` fields
are never read by the code under verification and are omitted. -/
structure Parameter where
  name : String
  type : String
  required : Bool
  loc : String            -- `in`: "path" | "query" | "body" | "header"
  dflt : Option Json
  ex : Option Json
  schema : Option Schema

/-- One entry of `ApiEndpoint.responses` (`src/unnamed/part_006`).  The
`format` field is never read by the code under verification and is omitted. -/
structure ResponseSpec where
  statusCode : Nat
  description : String
  schema : Option Schema

/-- The canonical endpoint model (`src/unnamed/part_006`).  `method` holds an
`HttpMethod` enum value, i.e. an upper-case method string. -/
structure ApiEndpoint where
  path : String
  method : String
  parameters : List Parameter
  responses : List ResponseSpec
  description : String
  summary : String
  tags : List String
  deprecated : Bool

/-- Embedding of `TestConfig` (`src/src/testers/endpoint.ts:20`).  An absent
`validateSchema` is falsy in the JS guards, hence a plain `Bool`; an absent
`paramValues` behaves as an empty map under the `config.paramValues &&`
guard, hence a plain list. -/
structure TestConfig where
  baseUrl : String
  headers : List (String × String) := []
  timeout : Option Nat := none
  validateSchema : Bool := false
  paramValues : List (String × Json) := []

/-- Embedding of `EndpointTestResult` (`src/src/testers/endpoint.ts:8`).  The
`responseTime` field is wall-clock time and is not modelled. -/
structure EndpointTestResult where
  endpoint : ApiEndpoint
  success : Bool
  statusCode : Option Nat
  error : Option String
  responseBody : Option Json

/-- Embedding of `SchemaValidationResult` (`src/src/testers/schema.ts:8`); each error
object `{message: …}` is modelled by its message string. -/
structure SchemaValidationResult where
  endpoint : ApiEndpoint
  valid : Bool
  errors : Option (List String)

/-- Embedding of `getParameterValue` (`src/src/testers/endpoint.ts:200`):
a `config.paramValues` entry wins; otherwise `param.example || literal`,
where the literal is keyed on `param.type`.  Note the source never reads
`param.default`, and `||` makes a falsy example fall through. -/
def getParameterValue (param : Parameter) (config : TestConfig) : Json :=
  match lookupVal config.paramValues param.name with
  | some v => v
  | none =>
    if param.type = "string" then orElseJs param.ex (.str ("test-" ++ param.name))
    else if param.type = "number" ∨ param.type = "integer" then orElseJs param.ex (.num 123)
    else if param.type = "boolean" then orElseJs param.ex (.bool true)
    else if param.type = "array" then orElseJs param.ex (.arr [])
    else if param.type = "object" then orElseJs param.ex (.obj [])
    else orElseJs param.ex (.str ("test-" ++ param.name))

/-- Embedding of `buildRequestBody` (`src/src/testers/endpoint.ts:171`):
no body-location parameters yields `null`; a schema on the *first*
body-location parameter is interpreted by the generator; otherwise the body
maps every body-location parameter name to its synthesized value. -/
def buildRequestBody (endpoint : ApiEndpoint) (config : TestConfig) : Json :=
  match endpoint.parameters.filter (fun p => p.loc == "body") with
  | [] => .null
  | p :: rest =>
    match p.schema with
    | some sch => generateDataFromSchema sch config.paramValues
    | none => .obj ((p :: rest).map (fun q => (q.name, getParameterValue q config)))

/-- The body-attachment guard of `testEndpoint`
(`src/src/testers/endpoint.ts:53`): `if (data && ['post','put','patch']
.includes(endpoint.method.toLowerCase())) axiosConfig.data = data`. -/
def attachedBody (endpoint : ApiEndpoint) (config : TestConfig) : Option Json :=
  let data := buildRequestBody endpoint config
  if truthy data && ["post", "put", "patch"].contains endpoint.method.toLower then
    some data
  else none

/-- JS `Array.prototype.join(sep)` on strings. -/
def joinSep (sep : String) : List String → String
  | [] => ""
  | [x] => x
  | x :: y :: rest => x ++ sep ++ joinSep sep (y :: rest)

/-- Embedding of `testEndpoint` (`src/src/testers/endpoint.ts:34`).  The
network call is an oracle argument `net`: `Except.ok (status, data)` is the
axios response (axios never throws on a status code because of
`validateStatus: () => true`), `Except.error msg` is a transport-level
failure caught by the surrounding `try`/`catch`. -/
def testEndpoint (endpoint : ApiEndpoint) (config : TestConfig)
    (net : Except String (Nat × Json)) : EndpointTestResult :=
  match net with
  | .error msg =>
    { endpoint
      success := false
      statusCode := none
      error := some msg
      responseBody := none }
  | .ok (status, data) =>
    let expectedSuccessStatus :=
      (endpoint.responses.filter
        (fun r => decide (200 ≤ r.statusCode) && decide (r.statusCode < 300))).map
        (·.statusCode)
    -- If no specific success status codes are defined, use 200 as default
    let successStatusCodes :=
      if expectedSuccessStatus.length > 0 then expectedSuccessStatus else [200]
    let success := successStatusCodes.contains status
    { endpoint
      success
      statusCode := some status
      error :=
        if success then none
        else some ("Expected status " ++ joinSep " or " (successStatusCodes.map toString)
          ++ ", got " ++ toString status)
      responseBody := some data }

/-- Embedding of `validateResponseSchema` (`src/src/testers/schema.ts:21`).
The Ajv schema compiler/checker is an oracle argument `ajv`:
`Except.error msg` models `ajv.compile`/`validate` throwing with message
`msg`; `Except.ok (valid, errors)` models a completed check, `errors` being
the (possibly `null`) `validate.errors` list. -/
def validateResponseSchema
    (ajv : Schema → Json → Except String (Bool × Option (List String)))
    (endpoint : ApiEndpoint) (statusCode : Nat) (responseBody : Json) :
    SchemaValidationResult :=
  match endpoint.responses.find? (fun r => r.statusCode == statusCode) with
  | none => { endpoint, valid := true, errors := none }
  | some responseDefinition =>
    match responseDefinition.schema with
    | none => { endpoint, valid := true, errors := none }
    | some sch =>
      match ajv sch responseBody with
      | .error msg =>
        { endpoint, valid := false, errors := some [msg] }
      | .ok (true, _) => { endpoint, valid := true, errors := none }
      | .ok (false, errs) =>
        { endpoint
          valid := false
          errors := some (match errs with
            | some l => l
            | none => ["Unknown validation error"]) }

/-- The mismatch message pushed by one iteration of the type-checking loop of
`validateRequestParams` (`src/src/testers/schema.ts:105`), `none` when the
declared type matches the runtime type or is not checked. -/
def typeErrorFor (p : Parameter) (v : Json) : Option String :=
  if p.type = "number" ∨ p.type = "integer" then
    if typeofJs v ≠ "number" then
      some ("Parameter " ++ p.name ++ " should be a number, got " ++ typeofJs v)
    else none
  else if p.type = "boolean" then
    if typeofJs v ≠ "boolean" then
      some ("Parameter " ++ p.name ++ " should be a boolean, got " ++ typeofJs v)
    else none
  else if p.type = "string" then
    if typeofJs v ≠ "string" then
      some ("Parameter " ++ p.name ++ " should be a string, got " ++ typeofJs v)
    else none
  else if p.type = "array" then
    if !(match v with | .arr _ => true | _ => false) then
      some ("Parameter " ++ p.name ++ " should be an array, got " ++ typeofJs v)
    else none
  else if p.type = "object" then
    if typeofJs v != "object" || (match v with | .null => true | _ => false)
        || (match v with | .arr _ => true | _ => false) then
      some ("Parameter " ++ p.name ++ " should be an object, got " ++ typeofJs v)
    else none
  else none

/-- The local `missingParams` list of `validateRequestParams`
(`src/src/testers/schema.ts:80`): the names of the `required` parameters
whose supplied value is `undefined`, in declaration order. -/
def missingRequired (endpoint : ApiEndpoint) (params : List (String × Json)) : List String :=
  ((endpoint.parameters.filter (·.required)).filter
    (fun p => (lookupVal params p.name).isNone)).map (·.name)

/-- The local `typeErrors` list of `validateRequestParams`
(`src/src/testers/schema.ts:103`): one message per supplied parameter whose
runtime type mismatches its declared type, in declaration order. -/
def typeErrorsOf (endpoint : ApiEndpoint) (params : List (String × Json)) : List String :=
  endpoint.parameters.filterMap (fun p =>
    match lookupVal params p.name with
    | none => none
    | some v => typeErrorFor p v)

/-- Embedding of `validateRequestParams` (`src/src/testers/schema.ts:74`);
its local `missingParams` and `typeErrors` are the factored-out definitions
above. -/
def validateRequestParams (endpoint : ApiEndpoint) (params : List (String × Json)) :
    SchemaValidationResult :=
  if (missingRequired endpoint params).length > 0 then
    { endpoint
      valid := false
      errors := some ((missingRequired endpoint params).map
        (fun n => "Missing required parameter: " ++ n)) }
  else
    if (typeErrorsOf endpoint params).length > 0 then
      { endpoint, valid := false, errors := some (typeErrorsOf endpoint params) }
    else
      { endpoint, valid := true, errors := none }

/-- Truthiness of `result.responseBody` in the orchestrator's guard
(`src/dist/testers/index.js:25`); an absent body is falsy. -/
def bodyTruthy (r : EndpointTestResult) : Bool :=
  match r.responseBody with
  | some b => truthy b
  | none => false

/-- One iteration of the orchestrator loop of `testApiEndpoints`
(`src/dist/testers/index.js:20`): run `testEndpoint`, then — only when
`config.validateSchema`, the result is successful, and the response body is
truthy — run `validateResponseSchema` and downgrade the result on an invalid
outcome.  `net` and `ajv` are the network and schema-compiler oracles.  The
exact `JSON.stringify` rendering of the violation list is not modelled; the
serialized violations are joined instead. -/
def processEndpoint (net : ApiEndpoint → Except String (Nat × Json))
    (ajv : Schema → Json → Except String (Bool × Option (List String)))
    (config : TestConfig) (endpoint : ApiEndpoint) : EndpointTestResult :=
  let result := testEndpoint endpoint config (net endpoint)
  if config.validateSchema && result.success && bodyTruthy result then
    let schemaResult := validateResponseSchema ajv endpoint (result.statusCode.getD 0)
      (result.responseBody.getD .null)
    if !schemaResult.valid then
      { result with
        success := false
        error := some ("Schema validation failed: "
          ++ joinSep ", " (schemaResult.errors.getD [])) }
    else result
  else result

/-- Embedding of `testApiEndpoints` (`src/dist/testers/index.js:17`): the
loop pushes exactly one result per endpoint, in input order.  The
`try`/`catch` around the loop body is unreachable in the embedding because
`testEndpoint` already catches transport failures (delivered through `net`)
and every other step is total. -/
def testApiEndpoints (net : ApiEndpoint → Except String (Nat × Json))
    (ajv : Schema → Json → Except String (Bool × Option (List String)))
    (endpoints : List ApiEndpoint) (config : TestConfig) : List EndpointTestResult :=
  endpoints.map (processEndpoint net ajv config)

/-- The character class `[a-zA-Z0-9_]` of both parameter regexes in
`parseRouteParams` (`src/unnamed/part_007:50`). -/
def isWordChar (c : Char) : Bool :=
  c.isAlphanum || c == '_'

/-- All matches of the global regex `:([a-zA-Z0-9_]+)` in left-to-right
order, as captured by the first `while (match = regex.exec(path))` loop of
`parseRouteParams`.  Scanning resumes character by character; this is
equivalent to resuming after each match because a match's word-character run
can contain no further `:`. -/
def colonParams : List Char → List String
  | [] => []
  | c :: rest =>
    if c = ':' then
      let run := rest.takeWhile isWordChar
      if run.isEmpty then colonParams rest
      else String.mk run :: colonParams rest
    else colonParams rest

/-- All matches of the global regex `{([a-zA-Z0-9_]+)}` in left-to-right
order, as captured by the second loop of `parseRouteParams`.  A `{` followed
by a maximal word run and then anything other than `}` matches nothing
there (shorter runs end at a word character, so backtracking cannot help). -/
def braceParams : List Char → List String
  | [] => []
  | c :: rest =>
    if c = '{' then
      let run := rest.takeWhile isWordChar
      if run.isEmpty then braceParams rest
      else
        match rest.dropWhile isWordChar with
        | '}' :: _ => String.mk run :: braceParams rest
        | _ => braceParams rest
    else braceParams rest

/-- Embedding of `parseRouteParams` (`src/unnamed/part_007:50`), the
implementation behind the spec's `extractParameters`: the `:name` pass runs
first over the whole path, then the `{name}` pass. -/
def parseRouteParams (path : String) : List String :=
  colonParams path.data ++ braceParams path.data

/-- Specification-side one-pass scanner: the named segments of a path in
left-to-right order of occurrence, recognizing both `:name` and `{name}`. -/
def namedSegments : List Char → List String
  | [] => []
  | c :: rest =>
    if c = ':' then
      let run := rest.takeWhile isWordChar
      if run.isEmpty then namedSegments rest
      else String.mk run :: namedSegments rest
    else if c = '{' then
      let run := rest.takeWhile isWordChar
      if run.isEmpty then namedSegments rest
      else
        match rest.dropWhile isWordChar with
        | '}' :: _ => String.mk run :: namedSegments rest
        | _ => namedSegments rest
    else namedSegments rest

/-! ### Specification-side notions used by the theorem statements -/

/-- The status codes of the declared `ResponseSpec`s lying in `[200, 300)`. -/
def declared2xx (endpoint : ApiEndpoint) : List Nat :=
  (endpoint.responses.filter
    (fun r => decide (200 ≤ r.statusCode) && decide (r.statusCode < 300))).map (·.statusCode)

/-- The success set `testEndpoint` classifies against: the declared 2xx codes
when any exist, `[200]` otherwise. -/
def successCodes (endpoint : ApiEndpoint) : List Nat :=
  if (declared2xx endpoint).length > 0 then declared2xx endpoint else [200]

/-- The string `sub` occurs contiguously inside `msg`. -/
def containsSub (msg sub : String) : Prop :=
  sub.data <:+: msg.data

/-- The optional field is absent, or present with a JS-falsy value. -/
def absentOrFalsy (x : Option Json) : Prop :=
  ∀ v, x = some v → truthy v = false

/-- Specification-side runtime-type check for `validateRequestParams`:
declared `number`/`integer` matches exactly a number, `boolean` a boolean,
`string` a string, `array` an array (never an object), `object` an object
(never `null`, never an array); other declared types are not checked. -/
def runtimeTypeMatches (ty : String) (v : Json) : Bool :=
  if ty = "number" ∨ ty = "integer" then (match v with | .num _ => true | _ => false)
  else if ty = "boolean" then (match v with | .bool _ => true | _ => false)
  else if ty = "string" then (match v with | .str _ => true | _ => false)
  else if ty = "array" then (match v with | .arr _ => true | _ => false)
  else if ty = "object" then (match v with | .obj _ => true | _ => false)
  else true

/-- The names of the supplied parameters whose runtime type mismatches their
declared type, in declaration order. -/
def mismatchedParams (endpoint : ApiEndpoint) (params : List (String × Json)) : List String :=
  endpoint.parameters.filterMap (fun p =>
    match lookupVal params p.name with
    | none => none
    | some v => if runtimeTypeMatches p.type v then none else some p.name)

/-! ### Concrete instances used by witnesses and counterexamples -/

/-- An endpoint declaring a 201 success and a 400 failure response. -/
def epTwoOhOne : ApiEndpoint :=
  { path := "/x"
    method := "GET"
    parameters := []
    responses := [⟨201, "created", none⟩, ⟨400, "bad request", none⟩]
    description := ""
    summary := ""
    tags := []
    deprecated := false }

/-- A `POST` endpoint with two body parameters where only the *second* one
declares a schema. -/
def epSecondBodySchema : ApiEndpoint :=
  { path := "/x"
    method := "POST"
    parameters :=
      [ { name := "a", type := "string", required := true, loc := "body"
          dflt := none, ex := none, schema := none },
        { name := "b", type := "string", required := true, loc := "body"
          dflt := none, ex := none
          schema := some (.mk (some "string") (some (.str "e")) none none none none) } ]
    responses := []
    description := ""
    summary := ""
    tags := []
    deprecated := false }

/-- An endpoint with two required parameters `a` and `b` and no responses. -/
def epTwoRequired : ApiEndpoint :=
  { path := "/x"
    method := "GET"
    parameters :=
      [ { name := "a", type := "string", required := true, loc := "query"
          dflt := none, ex := none, schema := none },
        { name := "b", type := "string", required := true, loc := "query"
          dflt := none, ex := none, schema := none } ]
    responses := []
    description := ""
    summary := ""
    tags := []
    deprecated := false }

/-- An endpoint whose 200 response declares a (placeholder) schema. -/
def epSchema200 : ApiEndpoint :=
  { path := "/x"
    method := "GET"
    parameters := []
    responses := [⟨200, "ok", some (.mk (some "string") none none none none none)⟩]
    description := ""
    summary := ""
    tags := []
    deprecated := false }

/-- An endpoint with no parameters and no responses. -/
def epBare : ApiEndpoint :=
  { path := "/x"
    method := "GET"
    parameters := []
    responses := []
    description := ""
    summary := ""
    tags := []
    deprecated := false }

/-- A minimal configuration. -/
def cfgBare : TestConfig := { baseUrl := "http://h" }

/-- A configuration with schema validation enabled. -/
def cfgValidate : TestConfig := { baseUrl := "http://h", validateSchema := true }

/-- A network oracle answering every request with status 200 and an empty
string body. -/
def netEmptyBody : ApiEndpoint → Except String (Nat × Json) :=
  fun _ => .ok (200, .str "")

/-- An Ajv oracle rejecting every body with one violation. -/
def ajvRejectAll : Schema → Json → Except String (Bool × Option (List String)) :=
  fun _ _ => .ok (false, some ["rejected"])

/-- An Ajv oracle that throws on every schema (a malformed schema). -/
def ajvThrow : Schema → Json → Except String (Bool × Option (List String)) :=
  fun _ _ => .error "schema is invalid"

/-- A number parameter with a declared default of `5` and no example. -/
def paramNumDflt5 : Parameter :=
  { name := "n", type := "number", required := true, loc := "query"
    dflt := some (.num 5), ex := none, schema := none }

/-- A boolean parameter with example `false`. -/
def paramBoolExFalse : Parameter :=
  { name := "b", type := "boolean", required := true, loc := "query"
    dflt := none, ex := some (.bool false), schema := none }

/-- A string parameter named `x` with no example and no default. -/
def paramX : Parameter :=
  { name := "x", type := "string", required := false, loc := "query"
    dflt := none, ex := none, schema := none }

/-- A configuration overriding parameter `x` with the number `7`. -/
def cfgOverrideX : TestConfig := { baseUrl := "", paramValues := [("x", .num 7)] }

/-! ## Helper lemmas -/

theorem testEndpoint_endpoint (endpoint : ApiEndpoint) (config : TestConfig)
    (net : Except String (Nat × Json)) :
    (testEndpoint endpoint config net).endpoint = endpoint := by
  match net with
  | .error msg => rfl
  | .ok (status, data) => rfl

theorem testEndpoint_ok_eq (endpoint : ApiEndpoint) (config : TestConfig)
    (status : Nat) (data : Json) :
    testEndpoint endpoint config (.ok (status, data)) =
      { endpoint
        success := (successCodes endpoint).contains status
        statusCode := some status
        error := if (successCodes endpoint).contains status then none
          else some ("Expected status "
            ++ joinSep " or " ((successCodes endpoint).map toString)
            ++ ", got " ++ toString status)
        responseBody := some data } := rfl

theorem mem_joinSep {m : String} (sep : String) :
    ∀ (l : List String), m ∈ l → m.data <:+: (joinSep sep l).data := by
  intro l
  induction l with
  | nil => intro h; cases h
  | cons x xs ih =>
    intro h
    cases xs with
    | nil =>
      rcases List.mem_singleton.mp h with rfl
      exact List.infix_rfl
    | cons y ys =>
      rcases List.mem_cons.mp h with rfl | hmem
      · refine List.IsPrefix.isInfix ?_
        show m.data <+: (m ++ sep ++ joinSep sep (y :: ys)).data
        rw [String.data_append, String.data_append, List.append_assoc]
        exact List.prefix_append _ _
      · refine (ih hmem).trans (List.IsSuffix.isInfix ?_)
        show (joinSep sep (y :: ys)).data <:+ (x ++ sep ++ joinSep sep (y :: ys)).data
        rw [String.data_append]
        exact List.suffix_append _ _

theorem colon_brace_perm (cs : List Char) :
    (colonParams cs ++ braceParams cs).Perm (namedSegments cs) := by
  induction cs with
  | nil => simp [colonParams, braceParams, namedSegments]
  | cons c rest ih =>
    by_cases hc : c = ':'
    · subst hc
      by_cases hrun : (rest.takeWhile isWordChar).isEmpty
      · simpa [colonParams, braceParams, namedSegments, hrun] using ih
      · simpa [colonParams, braceParams, namedSegments, hrun]
          using ih.cons (String.mk (rest.takeWhile isWordChar))
    · by_cases hb : c = '{'
      · subst hb
        by_cases hrun : (rest.takeWhile isWordChar).isEmpty
        · simpa [colonParams, braceParams, namedSegments, hrun] using ih
        · cases hdrop : rest.dropWhile isWordChar with
          | nil => simpa [colonParams, braceParams, namedSegments, hrun, hdrop] using ih
          | cons d rest2 =>
            by_cases hd : d = '}'
            · subst hd
              simpa [colonParams, braceParams, namedSegments, hrun, hdrop]
                using List.perm_middle.trans
                  (ih.cons (String.mk (rest.takeWhile isWordChar)))
            · simpa [colonParams, braceParams, namedSegments, hrun, hdrop, hd] using ih
      · simpa [colonParams, braceParams, namedSegments, hc, hb] using ih

/-! ## The claims -/

/-- C3 counterexample: For the mixed-notation path `"/a/{name}/b/:id"`
the brace parameter `name` occurs first, so a left-to-right extraction would
return `["name", "id"]`; `parseRouteParams` returns `["id", "name"]`
instead, because the `:name` pass runs before the `{name}` pass. -/
theorem parseRouteParams_mixed_order_counterexample :
    parseRouteParams "/a/{name}/b/:id" = ["id", "name"] ∧
    parseRouteParams "/a/{name}/b/:id" ≠ ["name", "id"] := by
  constructor
  · decide
  · decide

/-- C3 (amended): `parseRouteParams` returns the named segments of the
path — the same multiset a single left-to-right scan over both notations
yields — but ordered with every `:name` occurrence (in left-to-right order)
before every `{name}` occurrence (in left-to-right order); in particular for
`"/a/:id/b/{name}"` it returns `["id", "name"]`. -/
theorem parseRouteParams_two_pass_extraction (path : String) :
    (parseRouteParams path).Perm (namedSegments path.data) ∧
    parseRouteParams path = colonParams path.data ++ braceParams path.data ∧
    parseRouteParams "/a/:id/b/{name}" = ["id", "name"] := by
  refine ⟨colon_brace_perm path.data, rfl, by decide⟩

/-- C1: On an observed (non-throwing) response, `testEndpoint` marks the
result a success exactly when the observed status is among the declared 2xx
codes (or equals 200 when none are declared); when it is not, the `error`
message contains every expected status code and the observed status. -/
theorem testEndpoint_success_classification (endpoint : ApiEndpoint)
    (config : TestConfig) (status : Nat) (data : Json) :
    (declared2xx endpoint ≠ [] →
      ((testEndpoint endpoint config (.ok (status, data))).success = true ↔
        status ∈ declared2xx endpoint)) ∧
    (declared2xx endpoint = [] →
      ((testEndpoint endpoint config (.ok (status, data))).success = true ↔
        status = 200)) ∧
    ((testEndpoint endpoint config (.ok (status, data))).success = false →
      ∃ msg, (testEndpoint endpoint config (.ok (status, data))).error = some msg ∧
        (∀ c ∈ successCodes endpoint, containsSub msg (toString c)) ∧
        containsSub msg (toString status)) := by
  rw [testEndpoint_ok_eq]
  refine ⟨?_, ?_, ?_⟩
  · intro hne
    have hcodes : successCodes endpoint = declared2xx endpoint := by
      unfold successCodes
      rw [if_pos (List.length_pos.mpr hne)]
    simp [hcodes]
  · intro heq
    have hcodes : successCodes endpoint = [200] := by
      unfold successCodes
      rw [heq]
      rfl
    simp [hcodes]
  · intro hfail
    have hb : (successCodes endpoint).contains status = false := hfail
    refine ⟨"Expected status " ++ joinSep " or " ((successCodes endpoint).map toString)
      ++ ", got " ++ toString status, ?_, ?_, ?_⟩
    · show (if (successCodes endpoint).contains status = true then none
        else some ("Expected status "
          ++ joinSep " or " ((successCodes endpoint).map toString)
          ++ ", got " ++ toString status)) = some _
      rw [hb]
      simp
    · intro c hc
      unfold containsSub
      have h1 : (toString c).data <:+: (joinSep " or " ((successCodes endpoint).map toString)).data :=
        mem_joinSep " or " _ (List.mem_map_of_mem toString hc)
      refine h1.trans ?_
      rw [String.data_append, String.data_append, String.data_append]
      exact (List.suffix_append _ _).isInfix.trans
        ((List.prefix_append _ _).isInfix.trans (List.prefix_append _ _).isInfix)
    · unfold containsSub
      rw [String.data_append]
      exact (List.suffix_append _ _).isInfix

/-- C1 witness: For the endpoint declaring responses 201 and 400 and an
observed status 200, the classification theorem yields a failure whose error
message contains both the expected code 201 and the observed status 200. -/
theorem testEndpoint_success_classification_witness :
    ((testEndpoint epTwoOhOne cfgBare (.ok (200, .null))).success = true ↔
      200 ∈ declared2xx epTwoOhOne) ∧
    ∃ msg, (testEndpoint epTwoOhOne cfgBare (.ok (200, .null))).error = some msg ∧
      (∀ c ∈ successCodes epTwoOhOne, containsSub msg (toString c)) ∧
      containsSub msg (toString 200) :=
  ⟨(testEndpoint_success_classification epTwoOhOne cfgBare 200 .null).1 (by decide),
   (testEndpoint_success_classification epTwoOhOne cfgBare 200 .null).2.2 (by decide)⟩

/-- C2: For every network and Ajv oracle, `testApiEndpoints` returns
exactly one result per input endpoint, referencing the input endpoints in
input order; no failure or transport error on one endpoint removes or
reorders the entries of later ones. -/
theorem testApiEndpoints_one_result_per_endpoint_in_order
    (net : ApiEndpoint → Except String (Nat × Json))
    (ajv : Schema → Json → Except String (Bool × Option (List String)))
    (endpoints : List ApiEndpoint) (config : TestConfig) :
    (testApiEndpoints net ajv endpoints config).map (·.endpoint) = endpoints ∧
    (testApiEndpoints net ajv endpoints config).length = endpoints.length := by
  have hpe : ∀ ep, (processEndpoint net ajv config ep).endpoint = ep := by
    intro ep
    simp only [processEndpoint]
    split
    · split
      · exact testEndpoint_endpoint ep config (net ep)
      · exact testEndpoint_endpoint ep config (net ep)
    · exact testEndpoint_endpoint ep config (net ep)
  constructor
  · unfold testApiEndpoints
    induction endpoints with
    | nil => rfl
    | cons e es ih => simp only [List.map_cons, hpe e, ih]
  · unfold testApiEndpoints
    exact List.length_map _ _

theorem orElseJs_of_absentOrFalsy {x : Option Json} (h : absentOrFalsy x) (y : Json) :
    orElseJs x y = y := by
  cases x with
  | none => rfl
  | some v => simp [orElseJs, h v rfl]

theorem generate_primitive_orElse (t : String) (ex dflt : Option Json)
    (items : Option Schema) (props : Option Props) (ref : Option String)
    (pv : List (String × Json)) (lit : Json)
    (hlit : (t = "string" ∧ lit = .str "test-string") ∨
            ((t = "number" ∨ t = "integer") ∧ lit = .num 123) ∨
            (t = "boolean" ∧ lit = .bool true)) :
    generateDataFromSchema (.mk (some t) ex dflt items props ref) pv =
      orElseJs ex (orElseJs dflt lit) := by
  rcases hlit with ⟨ht, hl⟩ | ⟨ht, hl⟩ | ⟨ht, hl⟩ <;> subst hl
  · subst ht
    simp [generateDataFromSchema.eq_def]
  · rcases ht with rfl | rfl <;> simp [generateDataFromSchema.eq_def]
  · subst ht
    simp [generateDataFromSchema.eq_def]

/-- C4 counterexample: A boolean schema node with `example: false` does
not generate `false`: the source's `schema.example || schema.default || true`
treats the falsy example as absent and yields `true`. -/
theorem generate_falsy_example_counterexample :
    generateDataFromSchema (.mk (some "boolean") (some (.bool false)) none none none none) []
      = .bool true ∧
    generateDataFromSchema (.mk (some "boolean") (some (.bool false)) none none none none) []
      ≠ .bool false := by
  constructor
  · simp [generateDataFromSchema, orElseJs, truthy]
  · simp [generateDataFromSchema, orElseJs, truthy]

/-- C4 (amended): `generate` applies the precedence: an override for the
current property name is returned verbatim; otherwise, on a
string/number/integer/boolean node, the node's example is returned when
present *and truthy*, else its default when present *and truthy*, else the
fixed literal — a falsy example or default (`false`, `0`, `""`) falls
through to the next alternative. -/
theorem generate_value_precedence (t : String) (ex dflt : Option Json)
    (items : Option Schema) (props : Option Props) (ref : Option String)
    (pv : List (String × Json)) (lit : Json)
    (hlit : (t = "string" ∧ lit = .str "test-string") ∨
            ((t = "number" ∨ t = "integer") ∧ lit = .num 123) ∨
            (t = "boolean" ∧ lit = .bool true)) :
    (∀ e, ex = some e → truthy e = true →
      generateDataFromSchema (.mk (some t) ex dflt items props ref) pv = e) ∧
    (absentOrFalsy ex → ∀ d, dflt = some d → truthy d = true →
      generateDataFromSchema (.mk (some t) ex dflt items props ref) pv = d) ∧
    (absentOrFalsy ex → absentOrFalsy dflt →
      generateDataFromSchema (.mk (some t) ex dflt items props ref) pv = lit) ∧
    (∀ name psch rest v, lookupVal pv name = some v →
      generateProperties (.cons name psch rest) pv =
        (name, v) :: generateProperties rest pv) := by
  refine ⟨?_, ?_, ?_, ?_⟩
  · intro e he htr
    rw [generate_primitive_orElse t ex dflt items props ref pv lit hlit, he]
    simp [orElseJs, htr]
  · intro hex d hd htr
    rw [generate_primitive_orElse t ex dflt items props ref pv lit hlit,
      orElseJs_of_absentOrFalsy hex, hd]
    simp [orElseJs, htr]
  · intro hex hdflt
    rw [generate_primitive_orElse t ex dflt items props ref pv lit hlit,
      orElseJs_of_absentOrFalsy hex, orElseJs_of_absentOrFalsy hdflt]
  · intro name psch rest v hv
    simp [generateProperties, hv]

/-- C4 witness: A boolean node with no example and no default generates
`true`; a string node with truthy example `"e"` generates `"e"`. -/
theorem generate_value_precedence_witness :
    generateDataFromSchema (.mk (some "boolean") none none none none none) [] = .bool true ∧
    generateDataFromSchema (.mk (some "string") (some (.str "e")) none none none none) []
      = .str "e" :=
  ⟨(generate_value_precedence "boolean" none none none none none [] (.bool true)
      (Or.inr (Or.inr ⟨rfl, rfl⟩))).2.2.1 (fun v h => by cases h) (fun v h => by cases h),
   (generate_value_precedence "string" (some (.str "e")) none none none none []
      (.str "test-string") (Or.inl ⟨rfl, rfl⟩)).1 (.str "e") rfl (by decide)⟩

/-- C5 counterexample: A node whose `type` is the unrecognized string
`"banana"` generates `null` (the `switch` default), not an empty mapping. -/
theorem generate_unknown_type_counterexample :
    generateDataFromSchema (.mk (some "banana") none none none none none) [] = .null ∧
    generateDataFromSchema (.mk (some "banana") none none none none none) [] ≠ .obj [] := by
  constructor
  · simp [generateDataFromSchema]
  · simp [generateDataFromSchema]

/-- C5 (amended): `generate` is total (it never raises); a node whose
`type` tag is a string outside string/number/integer/boolean/array/object
returns `null` — not an empty mapping — while a node with a *missing* `type`
tag, including every `$ref` node, returns the empty mapping `{}`. -/
theorem generate_unrecognized_shapes (ex dflt : Option Json) (items : Option Schema)
    (props : Option Props) (ref : Option String) (pv : List (String × Json)) :
    (∀ t, t ∉ (["string", "number", "integer", "boolean", "array", "object"] : List String) →
      generateDataFromSchema (.mk (some t) ex dflt items props ref) pv = .null) ∧
    generateDataFromSchema (.mk none ex dflt items props ref) pv = .obj [] := by
  constructor
  · intro t ht
    simp only [List.mem_cons, List.not_mem_nil, or_false, not_or] at ht
    obtain ⟨h1, h2, h3, h4, h5, h6⟩ := ht
    simp [generateDataFromSchema.eq_def, h1, h2, h3, h4, h5, h6]
  · cases ref <;> simp [generateDataFromSchema.eq_def]

/-- C5 witness: The unrecognized type `"uuid"` yields `null`; a pure
`$ref` node yields the empty mapping. -/
theorem generate_unrecognized_shapes_witness :
    generateDataFromSchema (.mk (some "uuid") none none none none none) [] = .null ∧
    generateDataFromSchema (.mk none none none none none (some "#/definitions/x")) []
      = .obj [] :=
  ⟨(generate_unrecognized_shapes none none none none none []).1 "uuid" (by decide),
   (generate_unrecognized_shapes none none none none (some "#/definitions/x") []).2⟩

/-- C7 counterexample: `getParameterValue` never consults the
parameter's declared `default`: a number parameter with `default: 5` and no
example synthesizes `123`; and a falsy example (`false` on a boolean
parameter) is skipped in favour of the literal `true`. -/
theorem getParameterValue_default_ignored_counterexample :
    getParameterValue paramNumDflt5 cfgBare = .num 123 ∧
    getParameterValue paramNumDflt5 cfgBare ≠ .num 5 ∧
    getParameterValue paramBoolExFalse cfgBare = .bool true := by
  refine ⟨rfl, ?_, rfl⟩
  intro h
  rw [show getParameterValue paramNumDflt5 cfgBare = .num 123 from rfl] at h
  simp at h

/-- C7 (amended): For a parameter value, a `config.paramValues` override
wins; otherwise the parameter's example is used when present *and truthy*;
otherwise the type-keyed literal (string and unrecognized types →
`"test-<name>"`, number/integer → `123`, boolean → `true`, array → `[]`,
object → `{}`).  The parameter's declared `default` is never consulted. -/
theorem getParameterValue_precedence (param : Parameter) (config : TestConfig) :
    (∀ v, lookupVal config.paramValues param.name = some v →
      getParameterValue param config = v) ∧
    (lookupVal config.paramValues param.name = none →
      ((∀ e, param.ex = some e → truthy e = true → getParameterValue param config = e) ∧
       (absentOrFalsy param.ex →
         getParameterValue param config =
           (if param.type = "string" then .str ("test-" ++ param.name)
            else if param.type = "number" ∨ param.type = "integer" then .num 123
            else if param.type = "boolean" then .bool true
            else if param.type = "array" then .arr []
            else if param.type = "object" then .obj []
            else .str ("test-" ++ param.name))))) ∧
    (∀ d, getParameterValue { param with dflt := d } config = getParameterValue param config) := by
  refine ⟨?_, ?_, ?_⟩
  · intro v h
    simp [getParameterValue, h]
  · intro hnone
    constructor
    · intro e he htr
      simp [getParameterValue, hnone, he, orElseJs, htr]
    · intro hao
      simp only [getParameterValue, hnone, orElseJs_of_absentOrFalsy hao]
  · intro d
    rfl

/-- C7 witness: An override in `config.paramValues` is returned
verbatim. -/
theorem getParameterValue_precedence_witness :
    getParameterValue paramX cfgOverrideX = .num 7 :=
  (getParameterValue_precedence paramX cfgOverrideX).1 (.num 7) rfl

/-- C6 counterexample: On a `POST` endpoint whose body parameters are
`a` (no schema) and `b` (schema with example `"e"`), a body parameter *does*
declare a schema, yet the body is the name-to-value mapping — not the
generated value `"e"` — because the source only consults the schema of the
*first* body parameter. -/
theorem buildRequestBody_any_schema_counterexample :
    (epSecondBodySchema.parameters.filter (fun p => p.loc == "body")).any
      (fun p => p.schema.isSome) = true ∧
    generateDataFromSchema (.mk (some "string") (some (.str "e")) none none none none)
      cfgBare.paramValues = .str "e" ∧
    buildRequestBody epSecondBodySchema cfgBare =
      .obj [("a", .str "test-a"), ("b", .str "test-b")] ∧
    buildRequestBody epSecondBodySchema cfgBare ≠ .str "e" := by
  refine ⟨by decide, ?_, rfl, ?_⟩
  · simp [generateDataFromSchema.eq_def, orElseJs, truthy]
  · intro h
    rw [show buildRequestBody epSecondBodySchema cfgBare =
      .obj [("a", .str "test-a"), ("b", .str "test-b")] from rfl] at h
    simp at h

/-- C6 (amended): With no body-location parameters the body is `null`
and nothing is attached; otherwise, when the *first* body-location parameter
declares a schema the body is `generate(schema, config.paramValues)`, and
when it does not, the body maps every body-location parameter name to its
synthesized value; any attached body equals the built body, and a body is
attached only for the write-oriented methods POST/PUT/PATCH. -/
theorem buildRequestBody_spec (endpoint : ApiEndpoint) (config : TestConfig) :
    (endpoint.parameters.filter (fun p => p.loc == "body") = [] →
      buildRequestBody endpoint config = .null ∧ attachedBody endpoint config = none) ∧
    (∀ p rest, endpoint.parameters.filter (fun q => q.loc == "body") = p :: rest →
      (∀ sch, p.schema = some sch →
        buildRequestBody endpoint config = generateDataFromSchema sch config.paramValues) ∧
      (p.schema = none →
        buildRequestBody endpoint config =
          .obj ((p :: rest).map (fun q => (q.name, getParameterValue q config))))) ∧
    (∀ b, attachedBody endpoint config = some b →
      b = buildRequestBody endpoint config ∧
      endpoint.method.toLower ∈ ["post", "put", "patch"]) := by
  refine ⟨?_, ?_, ?_⟩
  · intro hfil
    have h1 : buildRequestBody endpoint config = .null := by
      unfold buildRequestBody
      rw [hfil]
    refine ⟨h1, ?_⟩
    simp only [attachedBody, h1]
    simp [truthy]
  · intro p rest hfil
    constructor
    · intro sch hsch
      unfold buildRequestBody
      rw [hfil]
      simp [hsch]
    · intro hsch
      unfold buildRequestBody
      rw [hfil]
      simp [hsch]
  · intro b hb
    simp only [attachedBody] at hb
    split at hb
    · cases hb
      rename_i hcond
      rw [Bool.and_eq_true] at hcond
      refine ⟨rfl, ?_⟩
      have := hcond.2
      simpa using this
    · cases hb

/-- C6 witness: An endpoint without body parameters builds no body and
attaches none. -/
theorem buildRequestBody_spec_witness :
    buildRequestBody epBare cfgBare = .null ∧ attachedBody epBare cfgBare = none :=
  (buildRequestBody_spec epBare cfgBare).1 rfl

theorem typeErrorFor_eq_none_iff (p : Parameter) (v : Json) :
    typeErrorFor p v = none ↔ runtimeTypeMatches p.type v = true := by
  unfold typeErrorFor runtimeTypeMatches
  split_ifs <;> cases v <;> simp_all [typeofJs]

theorem typeErrorsOf_length_eq (endpoint : ApiEndpoint) (params : List (String × Json)) :
    (typeErrorsOf endpoint params).length = (mismatchedParams endpoint params).length := by
  unfold typeErrorsOf mismatchedParams
  induction endpoint.parameters with
  | nil => rfl
  | cons p ps ih =>
    simp only [List.filterMap_cons]
    cases hl : lookupVal params p.name with
    | none => simpa using ih
    | some v =>
      by_cases hm : runtimeTypeMatches p.type v = true
      · have hnone : typeErrorFor p v = none := (typeErrorFor_eq_none_iff p v).mpr hm
        simp [hnone, hm, ih]
      · have hms : ∃ m, typeErrorFor p v = some m := by
          cases h : typeErrorFor p v with
          | none => exact absurd ((typeErrorFor_eq_none_iff p v).mp h) hm
          | some m => exact ⟨m, rfl⟩
        obtain ⟨m, hm2⟩ := hms
        simp [hm2, hm, ih]

/-- C8: `validateRequestParams` fails with exactly one violation per
missing required parameter — and performs no type checks — whenever a
required parameter is missing; otherwise it checks every supplied value
against its declared type (arrays distinguished from objects, `null` not an
object), collects one violation per mismatch, and is valid exactly when
there is no violation. -/
theorem validateRequestParams_exhaustive (endpoint : ApiEndpoint)
    (params : List (String × Json)) :
    (missingRequired endpoint params ≠ [] →
      (validateRequestParams endpoint params).valid = false ∧
      (validateRequestParams endpoint params).errors =
        some ((missingRequired endpoint params).map
          (fun n => "Missing required parameter: " ++ n))) ∧
    (missingRequired endpoint params = [] →
      ((validateRequestParams endpoint params).valid = true ↔
        mismatchedParams endpoint params = []) ∧
      (∀ errs, (validateRequestParams endpoint params).errors = some errs →
        errs.length = (mismatchedParams endpoint params).length)) := by
  constructor
  · intro hne
    have hlen : (missingRequired endpoint params).length > 0 := List.length_pos.mpr hne
    unfold validateRequestParams
    rw [if_pos hlen]
    exact ⟨rfl, rfl⟩
  · intro heq
    have hlen : ¬(missingRequired endpoint params).length > 0 := by simp [heq]
    have hmm := typeErrorsOf_length_eq endpoint params
    unfold validateRequestParams
    rw [if_neg hlen]
    by_cases ht : (typeErrorsOf endpoint params).length > 0
    · rw [if_pos ht]
      constructor
      · constructor
        · intro hv
          cases hv
        · intro hm
          exfalso
          rw [hm, List.length_nil] at hmm
          omega
      · intro errs herrs
        cases herrs
        exact hmm
    · rw [if_neg ht]
      constructor
      · have hmz : (mismatchedParams endpoint params).length = 0 := by omega
        simp [List.length_eq_zero.mp hmz]
      · intro errs herrs
        cases herrs

/-- C8 witness: Two required parameters `a` and `b` with nothing
supplied yield an invalid result with exactly the two missing-parameter
violations. -/
theorem validateRequestParams_exhaustive_witness :
    (validateRequestParams epTwoRequired []).valid = false ∧
    (validateRequestParams epTwoRequired []).errors =
      some ["Missing required parameter: a", "Missing required parameter: b"] := by
  have h := (validateRequestParams_exhaustive epTwoRequired []).1 (by decide)
  refine ⟨h.1, ?_⟩
  rw [h.2]
  rfl

/-- C9: `validateResponseSchema` trivially passes when no `ResponseSpec`
matches the status code or the matching one has no schema; and when the
schema compiler throws, it returns an invalid result whose errors are
exactly the one violation carrying the interpreter's message — the fault is
never propagated. -/
theorem validateResponseSchema_fault_handling
    (ajv : Schema → Json → Except String (Bool × Option (List String)))
    (endpoint : ApiEndpoint) (statusCode : Nat) (responseBody : Json) :
    (endpoint.responses.find? (fun r => r.statusCode == statusCode) = none →
      validateResponseSchema ajv endpoint statusCode responseBody =
        { endpoint := endpoint, valid := true, errors := none }) ∧
    (∀ rd, endpoint.responses.find? (fun r => r.statusCode == statusCode) = some rd →
      (rd.schema = none →
        validateResponseSchema ajv endpoint statusCode responseBody =
          { endpoint := endpoint, valid := true, errors := none }) ∧
      (∀ sch msg, rd.schema = some sch → ajv sch responseBody = .error msg →
        validateResponseSchema ajv endpoint statusCode responseBody =
          { endpoint := endpoint, valid := false, errors := some [msg] })) := by
  refine ⟨?_, ?_⟩
  · intro h
    unfold validateResponseSchema
    rw [h]
  · intro rd hfind
    constructor
    · intro hs
      unfold validateResponseSchema
      rw [hfind]
      simp [hs]
    · intro sch msg hs hajv
      unfold validateResponseSchema
      rw [hfind]
      simp [hs, hajv]

/-- C9 witness: An endpoint with no matching `ResponseSpec` passes
trivially; a throwing schema compiler yields a single-violation failure with
the thrown message. -/
theorem validateResponseSchema_fault_handling_witness :
    validateResponseSchema ajvThrow epBare 200 .null =
      { endpoint := epBare, valid := true, errors := none } ∧
    (validateResponseSchema ajvThrow epSchema200 200 .null).valid = false ∧
    (validateResponseSchema ajvThrow epSchema200 200 .null).errors =
      some ["schema is invalid"] := by
  have h := ((validateResponseSchema_fault_handling ajvThrow epSchema200 200 .null).2
    ⟨200, "ok", some (.mk (some "string") none none none none none)⟩ rfl).2
    (.mk (some "string") none none none none none) "schema is invalid" rfl rfl
  exact ⟨(validateResponseSchema_fault_handling ajvThrow epBare 200 .null).1 rfl,
    by rw [h], by rw [h]⟩

/-- C10: The orchestrator runs the schema check only when
`config.validateSchema` is set, the execution was classified successful, and
the response body is truthy; in particular, for a successful execution whose
body is absent or falsy (`null`, `""`, `0`, `false`), the result is returned
unchanged with `success = true` — for *every* Ajv oracle, including one whose
declared schema would reject that body. -/
theorem orchestrator_schema_check_guard
    (net : ApiEndpoint → Except String (Nat × Json))
    (ajv : Schema → Json → Except String (Bool × Option (List String)))
    (config : TestConfig) (endpoint : ApiEndpoint) :
    (config.validateSchema = false →
      processEndpoint net ajv config endpoint = testEndpoint endpoint config (net endpoint)) ∧
    ((testEndpoint endpoint config (net endpoint)).success = false →
      processEndpoint net ajv config endpoint = testEndpoint endpoint config (net endpoint)) ∧
    (bodyTruthy (testEndpoint endpoint config (net endpoint)) = false →
      processEndpoint net ajv config endpoint = testEndpoint endpoint config (net endpoint) ∧
      ((testEndpoint endpoint config (net endpoint)).success = true →
        (processEndpoint net ajv config endpoint).success = true)) := by
  refine ⟨?_, ?_, ?_⟩
  · intro h
    simp [processEndpoint, h]
  · intro h
    simp [processEndpoint, h]
  · intro h
    have he : processEndpoint net ajv config endpoint
        = testEndpoint endpoint config (net endpoint) := by
      simp [processEndpoint, h]
    exact ⟨he, fun hs => by rw [he]; exact hs⟩

/-- C10 witness: A successful execution answering the empty string as
body skips the schema check and stays successful, although the endpoint's
200 schema rejects that body under the given Ajv oracle. -/
theorem orchestrator_schema_check_guard_witness :
    (testEndpoint epSchema200 cfgValidate (netEmptyBody epSchema200)).success = true ∧
    bodyTruthy (testEndpoint epSchema200 cfgValidate (netEmptyBody epSchema200)) = false ∧
    (validateResponseSchema ajvRejectAll epSchema200 200 (.str "")).valid = false ∧
    (processEndpoint netEmptyBody ajvRejectAll cfgValidate epSchema200).success = true := by
  refine ⟨rfl, rfl, rfl, ?_⟩
  exact ((orchestrator_schema_check_guard netEmptyBody ajvRejectAll cfgValidate
    epSchema200).2.2 rfl).2 rfl

end DocuMentor
